import Mathlib

/-!
Shallow embedding of the seller-financing calculation engine
(`src/calculations.py`).  Python floats are modelled as exact rationals;
Python's `round(x, n)` (round-half-to-even on the scaled value) is modelled
by `roundHalfEven`; a Python function that can raise is modelled as an
`Except PyError` value.  Loop indices (`payment_number`) are modelled as
naturals, which is faithful for the non-negative term/period parameters in
the engine's input contract.
-/

set_option autoImplicit false

namespace SellerFinancing

deriving instance DecidableEq for Except

/-- Exception values the engine can raise: `ValueError` (with its message)
and `ZeroDivisionError`. -/
inductive PyError where
  | valueError (msg : String)
  | zeroDivisionError
  deriving DecidableEq, Repr

/-- Python division, which raises `ZeroDivisionError` on a zero divisor. -/
def pydiv (a b : ℚ) : Except PyError ℚ :=
  if b = 0 then .error .zeroDivisionError else .ok (a / b)

/-- Round-half-to-even to the nearest integer, the semantics of Python's
built-in `round` on an exactly represented value. -/
def roundHalfEven (q : ℚ) : ℤ :=
  if q - ⌊q⌋ < 1/2 then ⌊q⌋
  else if 1/2 < q - ⌊q⌋ then ⌊q⌋ + 1
  else if Even ⌊q⌋ then ⌊q⌋ else ⌊q⌋ + 1

/-- Python's `round(x, 2)`: round to the nearest cent (half to even). -/
def round2 (q : ℚ) : ℚ :=
  (roundHalfEven (q * 100) : ℚ) / 100

/-- Python's `round(x, 1)`: round to one decimal place (half to even). -/
def round1 (q : ℚ) : ℚ :=
  (roundHalfEven (q * 10) : ℚ) / 10

/-- Single row in an amortization schedule (`PaymentScheduleRow`). -/
structure PaymentScheduleRow where
  payment_number : ℕ
  payment_amount : ℚ
  principal : ℚ
  interest : ℚ
  balance : ℚ
  is_balloon : Bool
  deriving DecidableEq, Repr

/-- Summary of loan calculations for TILA disclosure (`LoanSummary`). -/
structure LoanSummary where
  amount_financed : ℚ
  apr : ℚ
  finance_charge : ℚ
  total_of_payments : ℚ
  monthly_payment : ℚ
  monthly_payment_amortizing : Option ℚ
  num_payments : ℤ
  num_io_payments : ℤ
  balloon_amount : Option ℚ
  balloon_payment_number : Option ℤ
  loan_type : String
  schedule : List PaymentScheduleRow
  monthly_servicing_fee : ℚ
  purchase_price : ℚ
  down_payment : ℚ
  closing_costs : ℚ
  deriving DecidableEq, Repr

/-- `calculate_monthly_payment`: closed-form level payment for a fully
amortizing loan; `annual_rate == 0` falls back to `principal / num_payments`.
The divisions raise `ZeroDivisionError` exactly when Python's would. -/
def calculate_monthly_payment (principal annual_rate : ℚ) (num_payments : ℤ) : Except PyError ℚ :=
  if annual_rate = 0 then
    pydiv principal (num_payments : ℚ)
  else
    let monthly_rate := annual_rate / 12
    pydiv (principal * (monthly_rate * (1 + monthly_rate) ^ num_payments))
      ((1 + monthly_rate) ^ num_payments - 1)

/-- `calculate_interest_only_payment`. -/
def calculate_interest_only_payment (principal annual_rate : ℚ) : ℚ :=
  principal * annual_rate / 12

/-- The amortizing loop body shared verbatim by `generate_standard_amortization`
(lines 106-123) and the second phase of `generate_hybrid` (lines 265-282):
per period, interest on the running balance, principal component =
level payment minus interest, balance floored at zero, and the final-period
reconciliation `if i == total and balance > 0`.  `remaining` counts the
periods left in the loop; `i` is the current 1-based payment number. -/
def amortRows (monthly_rate pay total_monthly : ℚ) (total : ℕ) :
    ℕ → ℚ → ℕ → List PaymentScheduleRow
  | _, _, 0 => []
  | i, balance, remaining + 1 =>
    let interest := balance * monthly_rate
    let principal_payment := pay - interest
    let bal1 := max 0 (balance - principal_payment)
    let pp2 := if i = total ∧ 0 < bal1 then principal_payment + bal1 else principal_payment
    let bal2 := if i = total ∧ 0 < bal1 then 0 else bal1
    { payment_number := i, payment_amount := round2 total_monthly,
      principal := round2 pp2, interest := round2 interest,
      balance := round2 bal2, is_balloon := false }
      :: amortRows monthly_rate pay total_monthly total (i + 1) bal2 remaining

/-- `generate_standard_amortization` (lines 79-142). -/
def generate_standard_amortization (principal annual_rate : ℚ) (term_years : ℤ)
    (monthly_servicing_fee : ℚ) : Except PyError LoanSummary :=
  let num_payments := term_years * 12
  let monthly_rate := annual_rate / 12
  match calculate_monthly_payment principal annual_rate num_payments with
  | .error e => .error e
  | .ok monthly_payment =>
  let total_monthly := monthly_payment + monthly_servicing_fee
  let schedule := amortRows monthly_rate monthly_payment total_monthly
    num_payments.toNat 1 principal num_payments.toNat
  let total_of_payments := total_monthly * (num_payments : ℚ)
  let finance_charge := total_of_payments - principal
  .ok {
    amount_financed := principal
    apr := annual_rate * 100
    finance_charge := round2 finance_charge
    total_of_payments := round2 total_of_payments
    monthly_payment := round2 total_monthly
    monthly_payment_amortizing := none
    num_payments := num_payments
    num_io_payments := 0
    balloon_amount := none
    balloon_payment_number := none
    loan_type := "Standard Amortization"
    schedule := schedule
    monthly_servicing_fee := monthly_servicing_fee
    purchase_price := 0
    down_payment := 0
    closing_costs := 0 }

/-- The loop of `generate_interest_only_balloon` (lines 171-192): every
period pays interest only, except the final period (`i == n`), which is the
balloon row carrying the full principal. -/
def ioRows (total_monthly principal monthly_rate : ℚ) (n : ℕ) :
    ℕ → ℕ → List PaymentScheduleRow
  | _, 0 => []
  | i, remaining + 1 =>
    let interest := principal * monthly_rate
    (if i = n then
      { payment_number := i, payment_amount := round2 (total_monthly + principal),
        principal := round2 principal, interest := round2 interest,
        balance := 0, is_balloon := true }
    else
      { payment_number := i, payment_amount := round2 total_monthly,
        principal := 0, interest := round2 interest,
        balance := round2 principal, is_balloon := false })
      :: ioRows total_monthly principal monthly_rate n (i + 1) remaining

/-- `generate_interest_only_balloon` (lines 145-211); it performs no division
and cannot raise, so it is pure. -/
def generate_interest_only_balloon (principal annual_rate : ℚ) (term_years : ℤ)
    (monthly_servicing_fee : ℚ) : LoanSummary :=
  let num_payments := term_years * 12
  let monthly_rate := annual_rate / 12
  let io_payment := calculate_interest_only_payment principal annual_rate
  let total_monthly := io_payment + monthly_servicing_fee
  let schedule := ioRows total_monthly principal monthly_rate
    num_payments.toNat 1 num_payments.toNat
  let total_of_payments := total_monthly * (num_payments : ℚ) + principal
  let finance_charge := total_of_payments - principal
  { amount_financed := principal
    apr := annual_rate * 100
    finance_charge := round2 finance_charge
    total_of_payments := round2 total_of_payments
    monthly_payment := round2 total_monthly
    monthly_payment_amortizing := none
    num_payments := num_payments
    num_io_payments := num_payments
    balloon_amount := some (round2 principal)
    balloon_payment_number := some num_payments
    loan_type := "Interest-Only with Balloon"
    schedule := schedule
    monthly_servicing_fee := monthly_servicing_fee
    purchase_price := 0
    down_payment := 0
    closing_costs := 0 }

/-- The interest-only phase of `generate_hybrid` (lines 252-262): the balance
is never reduced, each row records interest on the (constant) balance. -/
def hybridIoRows (total_io_monthly balance monthly_rate : ℚ) :
    ℕ → ℕ → List PaymentScheduleRow
  | _, 0 => []
  | i, remaining + 1 =>
    let interest := balance * monthly_rate
    { payment_number := i, payment_amount := round2 total_io_monthly,
      principal := 0, interest := round2 interest,
      balance := round2 balance, is_balloon := false }
      :: hybridIoRows total_io_monthly balance monthly_rate (i + 1) remaining

/-- `generate_hybrid` (lines 214-301): validation first, then an interest-only
phase followed by an amortizing phase sized to retire the full principal over
`(term_years - io_period_years) * 12` periods. -/
def generate_hybrid (principal annual_rate : ℚ) (term_years io_period_years : ℤ)
    (monthly_servicing_fee : ℚ) : Except PyError LoanSummary :=
  if io_period_years ≥ term_years then
    .error (.valueError "Interest-only period must be less than total term")
  else
    let num_io_payments := io_period_years * 12
    let num_amort_payments := (term_years - io_period_years) * 12
    let total_payments := term_years * 12
    let monthly_rate := annual_rate / 12
    let io_payment := calculate_interest_only_payment principal annual_rate
    match calculate_monthly_payment principal annual_rate num_amort_payments with
    | .error e => .error e
    | .ok amort_payment =>
    let total_io_monthly := io_payment + monthly_servicing_fee
    let total_amort_monthly := amort_payment + monthly_servicing_fee
    let schedule :=
      hybridIoRows total_io_monthly principal monthly_rate 1 num_io_payments.toNat
        ++ amortRows monthly_rate amort_payment total_amort_monthly
            total_payments.toNat (num_io_payments.toNat + 1) principal num_amort_payments.toNat
    let total_of_payments := total_io_monthly * (num_io_payments : ℚ)
      + total_amort_monthly * (num_amort_payments : ℚ)
    let finance_charge := total_of_payments - principal
    .ok {
      amount_financed := principal
      apr := annual_rate * 100
      finance_charge := round2 finance_charge
      total_of_payments := round2 total_of_payments
      monthly_payment := round2 total_io_monthly
      monthly_payment_amortizing := some (round2 total_amort_monthly)
      num_payments := total_payments
      num_io_payments := num_io_payments
      balloon_amount := none
      balloon_payment_number := none
      loan_type := "Hybrid (Interest-Only + Amortizing)"
      schedule := schedule
      monthly_servicing_fee := monthly_servicing_fee
      purchase_price := 0
      down_payment := 0
      closing_costs := 0 }

/-- The orchestrator's clamp of the requested interest-only years
(line 331): `min(io_period_years, term_years - 1) if io_period_years > 0 else 1`. -/
def ioClamp (io_period_years term_years : ℤ) : ℤ :=
  if 0 < io_period_years then min io_period_years (term_years - 1) else 1

/-- The keyed mapping returned by `calculate_all_scenarios`; the keys are the
fixed identifiers `standard`, `interest_only`, `hybrid`. -/
structure AllScenarios where
  standard : LoanSummary
  interest_only : LoanSummary
  hybrid : LoanSummary
  deriving DecidableEq, Repr

/-- The orchestrator's post-construction attachment of transaction context
(lines 338-341). -/
def attachContext (pp dp cc : ℚ) (s : LoanSummary) : LoanSummary :=
  { s with purchase_price := pp, down_payment := dp, closing_costs := cc }

/-- `calculate_all_scenarios` (lines 304-347). -/
def calculate_all_scenarios (purchase_price down_payment annual_rate : ℚ)
    (term_years io_period_years : ℤ) (monthly_servicing_fee closing_costs : ℚ) :
    Except PyError AllScenarios :=
  let principal := purchase_price - down_payment
  let io_years := ioClamp io_period_years term_years
  match generate_standard_amortization principal annual_rate term_years
    monthly_servicing_fee with
  | .error e => .error e
  | .ok standard =>
  let interest_only := generate_interest_only_balloon principal annual_rate term_years
    monthly_servicing_fee
  match generate_hybrid principal annual_rate term_years io_years
    monthly_servicing_fee with
  | .error e => .error e
  | .ok hybrid =>
  .ok {
    standard := attachContext purchase_price down_payment closing_costs standard
    interest_only := attachContext purchase_price down_payment closing_costs interest_only
    hybrid := attachContext purchase_price down_payment closing_costs hybrid }

/-- `NoteSaleAnalysis`. -/
structure NoteSaleAnalysis where
  buyer_yield : ℚ
  sale_price : ℚ
  discount_amount : ℚ
  discount_percent : ℚ
  deriving DecidableEq, Repr

/-- `calculate_note_sale_price` (lines 359-391): discounts each row's payment
net of the servicing fee at the buyer's monthly yield, then rounds the sale
price and discount amount to whole currency units and the discount percent to
one decimal. -/
def calculate_note_sale_price (summary : LoanSummary) (buyer_yield : ℚ) : NoteSaleAnalysis :=
  let monthly_rate := buyer_yield / 12
  let principal := summary.amount_financed
  let pv := summary.schedule.foldl
    (fun acc row =>
      acc + (row.payment_amount - summary.monthly_servicing_fee)
        / (1 + monthly_rate) ^ row.payment_number) 0
  let sale_price := pv
  let discount_amount := principal - sale_price
  let discount_percent := if 0 < principal then discount_amount / principal * 100 else 0
  { buyer_yield := buyer_yield * 100
    sale_price := (roundHalfEven sale_price : ℚ)
    discount_amount := (roundHalfEven discount_amount : ℚ)
    discount_percent := round1 discount_percent }

/-- Present value of a schedule at a buyer yield, written as the spec
(section 4.6) words it: the sum over all rows of
`(paymentAmount - servicingFee) / (1 + y/12) ^ periodNumber`. -/
def notePresentValueSpec (summary : LoanSummary) (buyer_yield : ℚ) : ℚ :=
  (summary.schedule.map
    (fun row => (row.payment_amount - summary.monthly_servicing_fee)
      / (1 + buyer_yield / 12) ^ row.payment_number)).sum

/-- A concrete one-row loan summary fixture for the note-valuation analysis:
positive principal (100), a single non-negative row payment (5), and a
servicing fee (10) exceeding the row payment, so the discounted cash flow
`payment - fee` is negative. -/
def oneRowNote : LoanSummary :=
  { amount_financed := 100
    apr := 0
    finance_charge := 0
    total_of_payments := 5
    monthly_payment := 5
    monthly_payment_amortizing := none
    num_payments := 1
    num_io_payments := 0
    balloon_amount := none
    balloon_payment_number := none
    loan_type := "Standard Amortization"
    schedule := [{ payment_number := 1, payment_amount := 5, principal := 0,
                   interest := 0, balance := 0, is_balloon := false }]
    monthly_servicing_fee := 10
    purchase_price := 0
    down_payment := 0
    closing_costs := 0 }


/-! ### Rounding lemmas -/

theorem roundHalfEven_floor_le (q : ℚ) : ⌊q⌋ ≤ roundHalfEven q := by
  unfold roundHalfEven
  split_ifs <;> omega

theorem roundHalfEven_le_floor_add_one (q : ℚ) : roundHalfEven q ≤ ⌊q⌋ + 1 := by
  unfold roundHalfEven
  split_ifs <;> omega

theorem roundHalfEven_mono {a b : ℚ} (h : a ≤ b) :
    roundHalfEven a ≤ roundHalfEven b := by
  rcases lt_or_eq_of_le (Int.floor_mono h) with hf | hf
  · calc roundHalfEven a ≤ ⌊a⌋ + 1 := roundHalfEven_le_floor_add_one a
      _ ≤ ⌊b⌋ := by omega
      _ ≤ roundHalfEven b := roundHalfEven_floor_le b
  · unfold roundHalfEven
    rw [hf]
    have hab : a - (⌊b⌋ : ℚ) ≤ b - (⌊b⌋ : ℚ) := by linarith
    split_ifs <;> first | omega | linarith

theorem roundHalfEven_add_even (q : ℚ) (m : ℤ) :
    roundHalfEven (q + (2 * m : ℤ)) = roundHalfEven q + 2 * m := by
  unfold roundHalfEven
  have h1 : ⌊q + ((2 * m : ℤ) : ℚ)⌋ = ⌊q⌋ + 2 * m := Int.floor_add_int q (2 * m)
  rw [h1]
  have h2 : q + ((2 * m : ℤ) : ℚ) - ((⌊q⌋ + 2 * m : ℤ) : ℚ) = q - (⌊q⌋ : ℚ) := by
    push_cast
    ring
  rw [h2]
  have hev : Even (⌊q⌋ + 2 * m) ↔ Even ⌊q⌋ := by
    simp only [Int.even_iff]
    omega
  simp only [hev]
  split_ifs <;> omega

theorem round2_zero : round2 0 = 0 := by
  unfold round2 roundHalfEven
  norm_num

theorem round2_add_even_cents (x p : ℚ) (hp : ∃ m : ℤ, p * 100 = 2 * m) :
    round2 (x + p) = round2 x + p := by
  obtain ⟨m, hm⟩ := hp
  unfold round2
  have hx : (x + p) * 100 = x * 100 + ((2 * m : ℤ) : ℚ) := by
    push_cast
    linarith
  rw [hx, roundHalfEven_add_even]
  push_cast
  have hpv : p = (2 * (m : ℚ)) / 100 := by linarith
  rw [hpv]
  ring

theorem round1_mono {a b : ℚ} (h : a ≤ b) : round1 a ≤ round1 b := by
  unfold round1
  have h10 : a * 10 ≤ b * 10 := by linarith
  have hc : ((roundHalfEven (a * 10) : ℚ)) ≤ ((roundHalfEven (b * 10) : ℚ)) := by
    exact_mod_cast roundHalfEven_mono h10
  linarith

/-! ### Amortizing-loop lemmas -/

theorem amortRows_length (mrate pay tm : ℚ) (total : ℕ) :
    ∀ (remaining i : ℕ) (balance : ℚ),
      (amortRows mrate pay tm total i balance remaining).length = remaining := by
  intro remaining
  induction remaining with
  | zero => intro i balance; rfl
  | succ r ih =>
    intro i balance
    simp only [amortRows, List.length_cons]
    rw [ih]

theorem amortRows_ne_nil (mrate pay tm : ℚ) (total : ℕ) (remaining i : ℕ) (balance : ℚ)
    (h : 0 < remaining) : amortRows mrate pay tm total i balance remaining ≠ [] := by
  intro hc
  have hl := amortRows_length mrate pay tm total remaining i balance
  rw [hc] at hl
  simp at hl
  omega

theorem amortRows_mem (mrate pay tm : ℚ) (total : ℕ) :
    ∀ (remaining i : ℕ) (balance : ℚ) (r : PaymentScheduleRow),
      r ∈ amortRows mrate pay tm total i balance remaining →
      r.payment_amount = round2 tm ∧ r.is_balloon = false := by
  intro remaining
  induction remaining with
  | zero => intro i balance r hr; simp [amortRows] at hr
  | succ k ih =>
    intro i balance r hr
    simp only [amortRows, List.mem_cons] at hr
    rcases hr with hr | hr
    · subst hr; exact ⟨rfl, rfl⟩
    · exact ih _ _ r hr

theorem amortRows_zero (mrate pay tm : ℚ) (total i : ℕ) (balance : ℚ) :
    amortRows mrate pay tm total i balance 0 = [] := rfl

theorem amortRows_succ (mrate pay tm : ℚ) (total i remaining : ℕ) (balance : ℚ) :
    amortRows mrate pay tm total i balance (remaining + 1) =
      { payment_number := i, payment_amount := round2 tm,
        principal := round2 (if i = total ∧ 0 < max 0 (balance - (pay - balance * mrate))
          then (pay - balance * mrate) + max 0 (balance - (pay - balance * mrate))
          else (pay - balance * mrate)),
        interest := round2 (balance * mrate),
        balance := round2 (if i = total ∧ 0 < max 0 (balance - (pay - balance * mrate))
          then 0 else max 0 (balance - (pay - balance * mrate))),
        is_balloon := false }
      :: amortRows mrate pay tm total (i + 1)
          (if i = total ∧ 0 < max 0 (balance - (pay - balance * mrate))
            then 0 else max 0 (balance - (pay - balance * mrate))) remaining := rfl

theorem amortRows_getLast_balance (mrate pay tm : ℚ) (total : ℕ) :
    ∀ (remaining i : ℕ) (balance : ℚ), 0 < remaining → i + remaining = total + 1 →
      ∃ r, (amortRows mrate pay tm total i balance remaining).getLast? = some r ∧
        r.balance = 0 := by
  intro remaining
  induction remaining with
  | zero => intro i balance h0 _; omega
  | succ k ih =>
    intro i balance _ hinv
    cases k with
    | zero =>
      have hit : i = total := by omega
      rw [amortRows_succ, amortRows_zero]
      refine ⟨_, rfl, ?_⟩
      by_cases hb : 0 < max 0 (balance - (pay - balance * mrate))
      · simp only [if_pos (And.intro hit hb)]
        exact round2_zero
      · have hzero : max 0 (balance - (pay - balance * mrate)) = 0 :=
          le_antisymm (not_lt.mp hb) (le_max_left _ _)
        simp only [hzero, lt_self_iff_false, and_false, if_false]
        exact round2_zero
    | succ k' =>
      obtain ⟨r, hlast, hbal⟩ := ih (i + 1)
        (if i = total ∧ 0 < max 0 (balance - (pay - balance * mrate)) then 0
          else max 0 (balance - (pay - balance * mrate)))
        (Nat.succ_pos k') (by omega)
      refine ⟨r, ?_, hbal⟩
      rw [amortRows_succ, ← List.singleton_append,
        List.getLast?_append_of_ne_nil _
          (amortRows_ne_nil mrate pay tm total (k' + 1) (i + 1) _ (Nat.succ_pos k'))]
      exact hlast

/-! ### Interest-only balloon loop lemmas -/

theorem ioRows_zero (tm principal mrate : ℚ) (n i : ℕ) :
    ioRows tm principal mrate n i 0 = [] := rfl

theorem ioRows_succ (tm principal mrate : ℚ) (n i remaining : ℕ) :
    ioRows tm principal mrate n i (remaining + 1) =
      (if i = n then
        { payment_number := i, payment_amount := round2 (tm + principal),
          principal := round2 principal, interest := round2 (principal * mrate),
          balance := 0, is_balloon := true }
      else
        { payment_number := i, payment_amount := round2 tm,
          principal := 0, interest := round2 (principal * mrate),
          balance := round2 principal, is_balloon := false })
      :: ioRows tm principal mrate n (i + 1) remaining := rfl

theorem ioRows_length (tm principal mrate : ℚ) (n : ℕ) :
    ∀ (remaining i : ℕ), (ioRows tm principal mrate n i remaining).length = remaining := by
  intro remaining
  induction remaining with
  | zero => intro i; rfl
  | succ k ih =>
    intro i
    rw [ioRows_succ, List.length_cons, ih]

theorem ioRows_ne_nil (tm principal mrate : ℚ) (n remaining i : ℕ) (h : 0 < remaining) :
    ioRows tm principal mrate n i remaining ≠ [] := by
  intro hc
  have hl := ioRows_length tm principal mrate n remaining i
  rw [hc] at hl
  simp at hl
  omega

theorem ioRows_structure (tm principal mrate : ℚ) (n : ℕ) :
    ∀ (remaining i : ℕ), 0 < remaining → i + remaining = n + 1 →
      (ioRows tm principal mrate n i remaining).getLast? =
        some { payment_number := n, payment_amount := round2 (tm + principal),
               principal := round2 principal, interest := round2 (principal * mrate),
               balance := 0, is_balloon := true } ∧
      (∀ r ∈ (ioRows tm principal mrate n i remaining).dropLast,
        r.principal = 0 ∧ r.payment_amount = round2 tm ∧
        r.balance = round2 principal ∧ r.is_balloon = false) ∧
      (ioRows tm principal mrate n i remaining).countP (fun r => r.is_balloon) = 1 := by
  intro remaining
  induction remaining with
  | zero => intro i h0 _; omega
  | succ k ih =>
    intro i _ hinv
    cases k with
    | zero =>
      have hit : i = n := by omega
      rw [ioRows_succ, ioRows_zero, if_pos hit, hit]
      refine ⟨rfl, ?_, ?_⟩
      · intro r hr
        simp [List.dropLast] at hr
      · simp [List.countP, List.countP.go]
    | succ k' =>
      have hne : i ≠ n := by omega
      obtain ⟨hlast, hdrop, hcount⟩ := ih (i + 1) (Nat.succ_pos k') (by omega)
      rw [ioRows_succ, if_neg hne]
      refine ⟨?_, ?_, ?_⟩
      · rw [← List.singleton_append,
          List.getLast?_append_of_ne_nil _
            (ioRows_ne_nil tm principal mrate n (k' + 1) (i + 1) (Nat.succ_pos k'))]
        exact hlast
      · intro r hr
        rw [List.dropLast_cons_of_ne_nil
          (ioRows_ne_nil tm principal mrate n (k' + 1) (i + 1) (Nat.succ_pos k'))] at hr
        rcases List.mem_cons.mp hr with hr | hr
        · subst hr
          exact ⟨rfl, rfl, rfl, rfl⟩
        · exact hdrop r hr
      · rw [List.countP_cons]
        simp only [hcount]
        rfl

theorem calculate_monthly_payment_ok (P rate : ℚ) (n : ℤ) (hr : 0 ≤ rate) (hn : n ≠ 0) :
    ∃ v, calculate_monthly_payment P rate n = Except.ok v := by
  unfold calculate_monthly_payment pydiv
  by_cases h0 : rate = 0
  · rw [if_pos h0, if_neg (by exact_mod_cast hn)]
    exact ⟨_, rfl⟩
  · have hrpos : 0 < rate := lt_of_le_of_ne hr (Ne.symm h0)
    have hm : (1 : ℚ) < 1 + rate / 12 := by linarith
    have hd : (1 + rate / 12) ^ n - 1 ≠ 0 := by
      rcases lt_or_gt_of_ne hn with hneg | hpos
      · intro hc
        have h1 : (1 + rate / 12) ^ n = 1 := by linarith
        linarith [zpow_lt_one_of_neg₀ hm hneg]
      · intro hc
        have h1 : (1 + rate / 12) ^ n = 1 := by linarith
        linarith [one_lt_zpow₀ hm hpos]
    rw [if_neg h0, if_neg hd]
    exact ⟨_, rfl⟩

theorem calculate_monthly_payment_error_shape (P rate : ℚ) (n : ℤ) (e : PyError)
    (h : calculate_monthly_payment P rate n = Except.error e) : e = PyError.zeroDivisionError := by
  unfold calculate_monthly_payment at h
  by_cases h0 : rate = 0
  · rw [if_pos h0] at h
    simp only [pydiv] at h
    split_ifs at h
    all_goals simp_all
  · rw [if_neg h0] at h
    simp only [pydiv] at h
    split_ifs at h
    all_goals simp_all

theorem gen_std_ok_iff (P rate : ℚ) (term : ℤ) (fee : ℚ) (s : LoanSummary) :
    generate_standard_amortization P rate term fee = Except.ok s ↔
    ∃ mp, calculate_monthly_payment P rate (term * 12) = Except.ok mp ∧
      s = { amount_financed := P
            apr := rate * 100
            finance_charge := round2 ((mp + fee) * ((term * 12 : ℤ) : ℚ) - P)
            total_of_payments := round2 ((mp + fee) * ((term * 12 : ℤ) : ℚ))
            monthly_payment := round2 (mp + fee)
            monthly_payment_amortizing := none
            num_payments := term * 12
            num_io_payments := 0
            balloon_amount := none
            balloon_payment_number := none
            loan_type := "Standard Amortization"
            schedule := amortRows (rate / 12) mp (mp + fee) (term * 12).toNat 1 P (term * 12).toNat
            monthly_servicing_fee := fee
            purchase_price := 0
            down_payment := 0
            closing_costs := 0 } := by
  unfold generate_standard_amortization
  cases hcmp : calculate_monthly_payment P rate (term * 12) with
  | error e => simp [hcmp]
  | ok mp =>
    simp only [hcmp, Except.ok.injEq]
    constructor
    · intro h; exact ⟨mp, rfl, h.symm⟩
    · rintro ⟨mp2, hmp2, hs⟩
      cases hmp2
      exact hs.symm

theorem hybridIoRows_zero_rows (tm balance mrate : ℚ) (i : ℕ) :
    hybridIoRows tm balance mrate i 0 = [] := rfl

theorem gen_hybrid_error (P rate : ℚ) (term io : ℤ) (fee : ℚ) (h : io ≥ term) :
    generate_hybrid P rate term io fee =
      Except.error (PyError.valueError "Interest-only period must be less than total term") := by
  unfold generate_hybrid
  rw [if_pos h]

theorem gen_hybrid_ok_iff (P rate : ℚ) (term io : ℤ) (fee : ℚ) (s : LoanSummary)
    (hlt : io < term) :
    generate_hybrid P rate term io fee = Except.ok s ↔
    ∃ ap, calculate_monthly_payment P rate ((term - io) * 12) = Except.ok ap ∧
      s = { amount_financed := P
            apr := rate * 100
            finance_charge := round2 ((calculate_interest_only_payment P rate + fee)
                * ((io * 12 : ℤ) : ℚ)
              + (ap + fee) * (((term - io) * 12 : ℤ) : ℚ) - P)
            total_of_payments := round2 ((calculate_interest_only_payment P rate + fee)
                * ((io * 12 : ℤ) : ℚ)
              + (ap + fee) * (((term - io) * 12 : ℤ) : ℚ))
            monthly_payment := round2 (calculate_interest_only_payment P rate + fee)
            monthly_payment_amortizing := some (round2 (ap + fee))
            num_payments := term * 12
            num_io_payments := io * 12
            balloon_amount := none
            balloon_payment_number := none
            loan_type := "Hybrid (Interest-Only + Amortizing)"
            schedule := hybridIoRows (calculate_interest_only_payment P rate + fee) P (rate / 12)
                1 (io * 12).toNat
              ++ amortRows (rate / 12) ap (ap + fee) (term * 12).toNat ((io * 12).toNat + 1) P
                  ((term - io) * 12).toNat
            monthly_servicing_fee := fee
            purchase_price := 0
            down_payment := 0
            closing_costs := 0 } := by
  unfold generate_hybrid
  rw [if_neg (not_le.mpr hlt)]
  cases hcmp : calculate_monthly_payment P rate ((term - io) * 12) with
  | error e => simp [hcmp]
  | ok ap =>
    simp only [hcmp, Except.ok.injEq]
    constructor
    · intro h; exact ⟨ap, rfl, h.symm⟩
    · rintro ⟨ap2, hap2, hs⟩
      cases hap2
      exact hs.symm

theorem calc_all_ok_iff (pp dp rate : ℚ) (term io : ℤ) (fee cc : ℚ) (a : AllScenarios) :
    calculate_all_scenarios pp dp rate term io fee cc = Except.ok a ↔
    ∃ std hyb, generate_standard_amortization (pp - dp) rate term fee = Except.ok std ∧
      generate_hybrid (pp - dp) rate term (ioClamp io term) fee = Except.ok hyb ∧
      a = { standard := attachContext pp dp cc std
            interest_only := attachContext pp dp cc
              (generate_interest_only_balloon (pp - dp) rate term fee)
            hybrid := attachContext pp dp cc hyb } := by
  unfold calculate_all_scenarios
  cases hs : generate_standard_amortization (pp - dp) rate term fee with
  | error e => simp [hs]
  | ok std =>
    cases hh : generate_hybrid (pp - dp) rate term (ioClamp io term) fee with
    | error e => simp [hs, hh]
    | ok hyb =>
      simp only [hs, hh, Except.ok.injEq]
      constructor
      · intro h; exact ⟨std, hyb, rfl, rfl, h.symm⟩
      · rintro ⟨s2, h2, hseq, hheq, ha⟩
        cases hseq
        cases hheq
        exact ha.symm

/-- C1: for positive principal, non-negative rate and a valid term (interest-only
years below the term, for the hybrid), the last schedule row of the standard and
hybrid generators has balance exactly 0: the final-period reconciliation absorbs
any residual into the last principal component. -/
theorem C1_final_balance_zero :
    (∀ (P rate : ℚ) (term : ℤ) (fee : ℚ), 0 < P → 0 ≤ rate → 1 ≤ term →
      ∃ s r, generate_standard_amortization P rate term fee = Except.ok s ∧
        s.schedule.getLast? = some r ∧ r.balance = 0) ∧
    (∀ (P rate : ℚ) (term io : ℤ) (fee : ℚ), 0 < P → 0 ≤ rate → 1 ≤ term →
      0 ≤ io → io < term →
      ∃ s r, generate_hybrid P rate term io fee = Except.ok s ∧
        s.schedule.getLast? = some r ∧ r.balance = 0) := by
  constructor
  · intro P rate term fee _ hr ht
    obtain ⟨mp, hmp⟩ := calculate_monthly_payment_ok P rate (term * 12) hr (by omega)
    obtain ⟨r, hlast, hbal⟩ := amortRows_getLast_balance (rate / 12) mp (mp + fee)
      (term * 12).toNat (term * 12).toNat 1 P (by omega) (by omega)
    refine ⟨_, r, (gen_std_ok_iff P rate term fee _).mpr ⟨mp, hmp, rfl⟩, ?_, hbal⟩
    exact hlast
  · intro P rate term io fee _ hr ht hio hlt
    obtain ⟨ap, hap⟩ := calculate_monthly_payment_ok P rate ((term - io) * 12) hr (by omega)
    obtain ⟨r, hlast, hbal⟩ := amortRows_getLast_balance (rate / 12) ap (ap + fee)
      (term * 12).toNat ((term - io) * 12).toNat ((io * 12).toNat + 1) P (by omega) (by omega)
    refine ⟨_, r, (gen_hybrid_ok_iff P rate term io fee _ hlt).mpr ⟨ap, hap, rfl⟩, ?_, hbal⟩
    rw [List.getLast?_append_of_ne_nil _
      (amortRows_ne_nil (rate / 12) ap (ap + fee) (term * 12).toNat
        (((term - io) * 12).toNat) ((io * 12).toNat + 1) P (by omega))]
    exact hlast

/-- Witness for C1 at principal 1200, zero rate, one- and two-year terms. -/
theorem C1_witness :
    (∃ s r, generate_standard_amortization 1200 0 1 0 = Except.ok s ∧
      s.schedule.getLast? = some r ∧ r.balance = 0) ∧
    (∃ s r, generate_hybrid 1200 0 2 1 0 = Except.ok s ∧
      s.schedule.getLast? = some r ∧ r.balance = 0) :=
  ⟨C1_final_balance_zero.1 1200 0 1 0 (by norm_num) (by norm_num) (by norm_num),
   C1_final_balance_zero.2 1200 0 2 1 0 (by norm_num) (by norm_num) (by norm_num)
     (by norm_num) (by norm_num)⟩

/-- C7: `generate_hybrid` fails with the interest-only-period `ValueError` (the
spec's `InvalidConfigurationError`) exactly when `io_period_years >= term_years`;
the guard runs before any row is generated, so the error carries no schedule. -/
theorem C7_hybrid_error_iff (P rate : ℚ) (term io : ℤ) (fee : ℚ) :
    generate_hybrid P rate term io fee =
      Except.error (PyError.valueError "Interest-only period must be less than total term") ↔
    io ≥ term := by
  constructor
  · intro h
    rcases le_or_lt term io with hge | hlt
    · exact hge
    · exfalso
      unfold generate_hybrid at h
      rw [if_neg (not_le.mpr hlt)] at h
      cases hcmp : calculate_monthly_payment P rate ((term - io) * 12) with
      | error e =>
        have he := calculate_monthly_payment_error_shape P rate ((term - io) * 12) e hcmp
        subst he
        simp only [hcmp] at h
        simp at h
      | ok ap =>
        simp only [hcmp] at h
        simp at h
  · intro h
    exact gen_hybrid_error P rate term io fee h

/-- C3: for positive principal and a term of at least one year, the
interest-only balloon schedule has exactly one balloon row, namely the last,
whose payment is the interest-only payment plus servicing fee plus principal
(rounded to 2 decimals) and whose balance is 0; every earlier row has
principal component 0, the rounded interest-only payment plus fee, and the
rounded full principal as balance. -/
theorem C3_balloon_structure (P rate : ℚ) (term : ℤ) (fee : ℚ)
    (_hP : 0 < P) (ht : 1 ≤ term) :
    ∃ r, (generate_interest_only_balloon P rate term fee).schedule.getLast? = some r ∧
      r.is_balloon = true ∧
      r.payment_amount = round2 (calculate_interest_only_payment P rate + fee + P) ∧
      r.balance = 0 ∧
      (generate_interest_only_balloon P rate term fee).schedule.countP
        (fun row => row.is_balloon) = 1 ∧
      ∀ row ∈ (generate_interest_only_balloon P rate term fee).schedule.dropLast,
        row.principal = 0 ∧
        row.payment_amount = round2 (calculate_interest_only_payment P rate + fee) ∧
        row.balance = round2 P ∧ row.is_balloon = false := by
  have hsched : (generate_interest_only_balloon P rate term fee).schedule =
      ioRows (calculate_interest_only_payment P rate + fee) P (rate / 12)
        (term * 12).toNat 1 (term * 12).toNat := rfl
  obtain ⟨hlast, hdrop, hcount⟩ := ioRows_structure
    (calculate_interest_only_payment P rate + fee) P (rate / 12)
    (term * 12).toNat (term * 12).toNat 1 (by omega) (by omega)
  refine ⟨{ payment_number := (term * 12).toNat,
            payment_amount := round2 (calculate_interest_only_payment P rate + fee + P),
            principal := round2 P, interest := round2 (P * (rate / 12)),
            balance := 0, is_balloon := true }, ?_, rfl, rfl, rfl, ?_, ?_⟩
  · rw [hsched]
    exact hlast
  · rw [hsched]
    exact hcount
  · rw [hsched]
    exact hdrop

/-- Witness for C3 at principal 1200, rate 12 percent, one-year term. -/
theorem C3_witness :
    ∃ r, (generate_interest_only_balloon 1200 (12/100) 1 0).schedule.getLast? = some r ∧
      r.is_balloon = true ∧
      r.payment_amount = round2 (calculate_interest_only_payment 1200 (12/100) + 0 + 1200) ∧
      r.balance = 0 ∧
      (generate_interest_only_balloon 1200 (12/100) 1 0).schedule.countP
        (fun row => row.is_balloon) = 1 ∧
      ∀ row ∈ (generate_interest_only_balloon 1200 (12/100) 1 0).schedule.dropLast,
        row.principal = 0 ∧
        row.payment_amount = round2 (calculate_interest_only_payment 1200 (12/100) + 0) ∧
        row.balance = round2 1200 ∧ row.is_balloon = false :=
  C3_balloon_structure 1200 (12/100) 1 0 (by norm_num) (by norm_num)

/-- C10: with `term_years = 1` and a requested interest-only period of at least
one year, the orchestrator reduces the interest-only years to 0 (outside the
documented range), the hybrid precondition passes, and the hybrid summary has
`num_io_payments = 0` and a 12-period amortizing-only schedule, while its
`monthly_payment` field still carries the interest-only payment, which labels
no row of the schedule (every row carries the amortizing payment). -/
theorem C10_term_one_clamp (pp dp rate : ℚ) (io : ℤ) (fee cc : ℚ)
    (hr : 0 ≤ rate) (hio : 1 ≤ io) :
    ∃ a ap, calculate_all_scenarios pp dp rate 1 io fee cc = Except.ok a ∧
      calculate_monthly_payment (pp - dp) rate 12 = Except.ok ap ∧
      a.hybrid.num_io_payments = 0 ∧
      a.hybrid.num_payments = 12 ∧
      a.hybrid.schedule.length = 12 ∧
      (∀ r ∈ a.hybrid.schedule, r.is_balloon = false ∧
        r.payment_amount = round2 (ap + fee)) ∧
      a.hybrid.monthly_payment = round2 (calculate_interest_only_payment (pp - dp) rate + fee) ∧
      ∃ r, a.hybrid.schedule.getLast? = some r ∧ r.balance = 0 := by
  have hclamp : ioClamp io 1 = 0 := by
    unfold ioClamp
    rw [if_pos (by omega)]
    omega
  obtain ⟨mp, hmp⟩ := calculate_monthly_payment_ok (pp - dp) rate ((1 : ℤ) * 12) hr (by omega)
  obtain ⟨ap, hap⟩ := calculate_monthly_payment_ok (pp - dp) rate (((1 : ℤ) - 0) * 12) hr
    (by omega)
  have hstd := (gen_std_ok_iff (pp - dp) rate 1 fee _).mpr ⟨mp, hmp, rfl⟩
  have hhyb := (gen_hybrid_ok_iff (pp - dp) rate 1 0 fee _ (by omega)).mpr ⟨ap, hap, rfl⟩
  have hrw : generate_hybrid (pp - dp) rate 1 (ioClamp io 1) fee =
      generate_hybrid (pp - dp) rate 1 0 fee := by rw [hclamp]
  refine ⟨_, ap, (calc_all_ok_iff pp dp rate 1 io fee cc _).mpr
    ⟨_, _, hstd, hrw.trans hhyb, rfl⟩, hap, rfl, rfl, ?_, ?_, rfl, ?_⟩
  · show (amortRows (rate / 12) ap (ap + fee) 12 1 (pp - dp) 12).length = 12
    exact amortRows_length (rate / 12) ap (ap + fee) 12 12 1 (pp - dp)
  · show ∀ r ∈ amortRows (rate / 12) ap (ap + fee) 12 1 (pp - dp) 12, _
    intro r hr2
    obtain ⟨hpa, hb⟩ := amortRows_mem (rate / 12) ap (ap + fee) 12 12 1 (pp - dp) r hr2
    exact ⟨hb, hpa⟩
  · show ∃ r, (amortRows (rate / 12) ap (ap + fee) 12 1 (pp - dp) 12).getLast? = some r ∧
      r.balance = 0
    exact amortRows_getLast_balance (rate / 12) ap (ap + fee) 12 12 1 (pp - dp)
      (by omega) (by omega)

/-- Witness for C10 at purchase price 1200, zero down payment, zero rate,
requested interest-only period of 3 years. -/
theorem C10_witness :
    ∃ a ap, calculate_all_scenarios 1200 0 0 1 3 0 0 = Except.ok a ∧
      calculate_monthly_payment (1200 - 0) 0 12 = Except.ok ap ∧
      a.hybrid.num_io_payments = 0 ∧
      a.hybrid.num_payments = 12 ∧
      a.hybrid.schedule.length = 12 ∧
      (∀ r ∈ a.hybrid.schedule, r.is_balloon = false ∧
        r.payment_amount = round2 (ap + 0)) ∧
      a.hybrid.monthly_payment = round2 (calculate_interest_only_payment (1200 - 0) 0 + 0) ∧
      ∃ r, a.hybrid.schedule.getLast? = some r ∧ r.balance = 0 :=
  C10_term_one_clamp 1200 0 0 3 0 0 (by norm_num) (by norm_num)

/-- Counterexample for C6 as stated: at `term_years = 1` (inside the claimed
range `[1, 40]`) with requested interest-only years 0, the orchestrator raises
the hybrid precondition error instead of protecting it, and with requested
interest-only years 1 the clamp result is 0, outside `[1, term_years - 1]`. -/
theorem C6_counterexample :
    calculate_all_scenarios 1000 0 0 1 0 0 0 =
      Except.error (PyError.valueError "Interest-only period must be less than total term") ∧
    ioClamp 1 1 = 0 := by
  constructor
  · decide
  · decide

/-- C6 amended: for `term_years` in `[2, 40]`, the clamp lands in
`[1, term_years - 1]`, `calculate_all_scenarios` does not raise, and the
standard and interest-only summaries are independent of the requested
interest-only years. -/
theorem C6_clamp_term_ge_two (pp dp rate : ℚ) (term io io2 : ℤ) (fee cc : ℚ)
    (ht2 : 2 ≤ term) (ht40 : term ≤ 40) (hr : 0 ≤ rate) :
    (1 ≤ ioClamp io term ∧ ioClamp io term ≤ term - 1) ∧
    ∃ a b, calculate_all_scenarios pp dp rate term io fee cc = Except.ok a ∧
      calculate_all_scenarios pp dp rate term io2 fee cc = Except.ok b ∧
      a.standard = b.standard ∧ a.interest_only = b.interest_only := by
  have hclamp : ∀ j : ℤ, 1 ≤ ioClamp j term ∧ ioClamp j term ≤ term - 1 := by
    intro j
    unfold ioClamp
    split_ifs with h
    · omega
    · omega
  refine ⟨hclamp io, ?_⟩
  obtain ⟨mp, hmp⟩ := calculate_monthly_payment_ok (pp - dp) rate (term * 12) hr (by omega)
  have hstd := (gen_std_ok_iff (pp - dp) rate term fee _).mpr ⟨mp, hmp, rfl⟩
  obtain ⟨ap1, hap1⟩ := calculate_monthly_payment_ok (pp - dp) rate
    ((term - ioClamp io term) * 12) hr (by have := hclamp io; omega)
  obtain ⟨ap2, hap2⟩ := calculate_monthly_payment_ok (pp - dp) rate
    ((term - ioClamp io2 term) * 12) hr (by have := hclamp io2; omega)
  have hh1 := (gen_hybrid_ok_iff (pp - dp) rate term (ioClamp io term) fee _
    (by have := hclamp io; omega)).mpr ⟨ap1, hap1, rfl⟩
  have hh2 := (gen_hybrid_ok_iff (pp - dp) rate term (ioClamp io2 term) fee _
    (by have := hclamp io2; omega)).mpr ⟨ap2, hap2, rfl⟩
  exact ⟨_, _, (calc_all_ok_iff pp dp rate term io fee cc _).mpr ⟨_, _, hstd, hh1, rfl⟩,
    (calc_all_ok_iff pp dp rate term io2 fee cc _).mpr ⟨_, _, hstd, hh2, rfl⟩, rfl, rfl⟩

/-- Witness for the amended C6 at a 5-year term with requested interest-only
years 99 versus 3. -/
theorem C6_witness :
    (1 ≤ ioClamp 99 5 ∧ ioClamp 99 5 ≤ 5 - 1) ∧
    ∃ a b, calculate_all_scenarios 1200 0 0 5 99 0 0 = Except.ok a ∧
      calculate_all_scenarios 1200 0 0 5 3 0 0 = Except.ok b ∧
      a.standard = b.standard ∧ a.interest_only = b.interest_only :=
  C6_clamp_term_ge_two 1200 0 0 5 99 3 0 0 (by norm_num) (by norm_num) (by norm_num)

/-- Counterexample for C4 as stated: with purchase price equal to the down
payment (financed principal 0), `calculate_all_scenarios` succeeds instead of
failing with a configuration error. -/
theorem C4_counterexample :
    (calculate_all_scenarios 100 100 0 5 3 0 0).isOk = true ∧ (100 : ℚ) - 100 ≤ 0 := by
  constructor
  · decide
  · norm_num

/-- C4 amended: `calculate_all_scenarios` performs no validation of the
financed principal: with `purchase_price - down_payment <= 0` (non-negative
rate, term at least 1, requested interest-only years at least 1) it succeeds
and returns all three summaries computed on the non-positive principal. -/
theorem C4_no_principal_validation (pp dp rate : ℚ) (term io : ℤ) (fee cc : ℚ)
    (_hP : pp - dp ≤ 0) (hr : 0 ≤ rate) (ht : 1 ≤ term) (hio : 1 ≤ io) :
    ∃ a, calculate_all_scenarios pp dp rate term io fee cc = Except.ok a ∧
      a.standard.amount_financed = pp - dp ∧
      a.interest_only.amount_financed = pp - dp ∧
      a.hybrid.amount_financed = pp - dp := by
  have hcl : 0 ≤ ioClamp io term ∧ ioClamp io term < term := by
    unfold ioClamp
    split_ifs with h
    · omega
    · omega
  obtain ⟨mp, hmp⟩ := calculate_monthly_payment_ok (pp - dp) rate (term * 12) hr (by omega)
  have hstd := (gen_std_ok_iff (pp - dp) rate term fee _).mpr ⟨mp, hmp, rfl⟩
  obtain ⟨ap, hap⟩ := calculate_monthly_payment_ok (pp - dp) rate
    ((term - ioClamp io term) * 12) hr (by omega)
  have hh := (gen_hybrid_ok_iff (pp - dp) rate term (ioClamp io term) fee _ hcl.2).mpr
    ⟨ap, hap, rfl⟩
  exact ⟨_, (calc_all_ok_iff pp dp rate term io fee cc _).mpr ⟨_, _, hstd, hh, rfl⟩,
    rfl, rfl, rfl⟩

/-- Witness for the amended C4 at purchase price 100 fully covered by the down
payment. -/
theorem C4_witness :
    ∃ a, calculate_all_scenarios 100 100 0 5 3 0 0 = Except.ok a ∧
      a.standard.amount_financed = 100 - 100 ∧
      a.interest_only.amount_financed = 100 - 100 ∧
      a.hybrid.amount_financed = 100 - 100 :=
  C4_no_principal_validation 100 100 0 5 3 0 0 (by norm_num) (by norm_num)
    (by norm_num) (by norm_num)

/-! ### Concrete evaluation helpers for the half-even rounding -/

theorem roundHalfEven_eq_down (q : ℚ) (f : ℤ) (h1 : (f : ℚ) ≤ q) (h2 : q < (f : ℚ) + 1/2) :
    roundHalfEven q = f := by
  have hf : ⌊q⌋ = f := Int.floor_eq_iff.mpr ⟨h1, by linarith⟩
  unfold roundHalfEven
  rw [hf, if_pos (by linarith)]

theorem roundHalfEven_eq_up (q : ℚ) (f : ℤ) (h1 : (f : ℚ) + 1/2 < q) (h2 : q < (f : ℚ) + 1) :
    roundHalfEven q = f + 1 := by
  have hf : ⌊q⌋ = f := Int.floor_eq_iff.mpr ⟨by linarith, by linarith⟩
  unfold roundHalfEven
  rw [hf, if_neg (by linarith), if_pos (by linarith)]

theorem roundHalfEven_eq_tie_even (q : ℚ) (f : ℤ) (h1 : q = (f : ℚ) + 1/2) (he : Even f) :
    roundHalfEven q = f := by
  have hf : ⌊q⌋ = f := Int.floor_eq_iff.mpr ⟨by rw [h1]; linarith, by rw [h1]; linarith⟩
  unfold roundHalfEven
  rw [hf, if_neg (by rw [h1]; linarith), if_neg (by rw [h1]; linarith),
    if_pos he]

theorem roundHalfEven_eq_tie_odd (q : ℚ) (f : ℤ) (h1 : q = (f : ℚ) + 1/2) (ho : ¬Even f) :
    roundHalfEven q = f + 1 := by
  have hf : ⌊q⌋ = f := Int.floor_eq_iff.mpr ⟨by rw [h1]; linarith, by rw [h1]; linarith⟩
  unfold roundHalfEven
  rw [hf, if_neg (by rw [h1]; linarith), if_neg (by rw [h1]; linarith),
    if_neg ho]

/-- Counterexample for C5 as stated: for a negative payment count the formula
returns a value instead of failing (there is no term validation in the code,
and no `InvalidTermError` exists anywhere in it). -/
theorem C5_counterexample :
    calculate_monthly_payment 1200 0 (-12) = Except.ok (-100) := by
  have h : ((-12 : ℤ) : ℚ) ≠ 0 := by norm_num
  simp only [calculate_monthly_payment, pydiv, if_pos rfl, if_neg h]
  norm_num

/-- C5 amended: the only failure of `calculate_monthly_payment` is a
`ZeroDivisionError` at `num_payments = 0` (there is no typed term error); for
any non-zero payment count, including negative ones, it returns
`principal / num_payments` at zero rate and otherwise the closed-form annuity
value. -/
theorem C5_payment_formula (P rate : ℚ) (n : ℤ) :
    calculate_monthly_payment P rate 0 = Except.error PyError.zeroDivisionError ∧
    (n ≠ 0 → rate = 0 → calculate_monthly_payment P rate n = Except.ok (P / (n : ℚ))) ∧
    (n ≠ 0 → 0 < rate → calculate_monthly_payment P rate n =
      Except.ok (P * ((rate / 12) * (1 + rate / 12) ^ n) / ((1 + rate / 12) ^ n - 1))) := by
  refine ⟨?_, ?_, ?_⟩
  · simp only [calculate_monthly_payment, pydiv]
    by_cases h0 : rate = 0
    · rw [if_pos h0]
      norm_num
    · rw [if_neg h0, zpow_zero]
      norm_num
  · intro hn h0
    simp only [calculate_monthly_payment, pydiv]
    rw [if_pos h0, if_neg (by exact_mod_cast hn)]
  · intro hn hr
    have h0 : rate ≠ 0 := ne_of_gt hr
    have hm : (1 : ℚ) < 1 + rate / 12 := by linarith
    have hd : (1 + rate / 12) ^ n - 1 ≠ 0 := by
      rcases lt_or_gt_of_ne hn with hneg | hpos
      · intro hc
        have h1 : (1 + rate / 12) ^ n = 1 := by linarith
        linarith [zpow_lt_one_of_neg₀ hm hneg]
      · intro hc
        have h1 : (1 + rate / 12) ^ n = 1 := by linarith
        linarith [one_lt_zpow₀ hm hpos]
    simp only [calculate_monthly_payment, pydiv]
    rw [if_neg h0, if_neg hd]

/-- Witness for the amended C5 at principal 100, zero rate, 12 payments. -/
theorem C5_witness :
    calculate_monthly_payment 100 0 12 = Except.ok (100 / ((12 : ℤ) : ℚ)) ∧ (12 : ℤ) ≠ 0 :=
  ⟨(C5_payment_formula 100 0 12).2.1 (by norm_num) rfl, by norm_num⟩

/-- Counterexample for C2 as stated: at amount financed 100.005 (not a whole
number of cents; zero rate, one-year term, no fee) the independently rounded
summary fields satisfy `total_of_payments - (finance_charge + amount_financed)
= -0.005 /= 0`; and at amount financed 100.01 (an odd number of cents) with fee
1/2400 the total lands on a half-cent tie and the defect is +0.01. -/
theorem C2_counterexample :
    (generate_standard_amortization (20001/200) 0 1 0).map
        (fun s => s.total_of_payments - (s.finance_charge + s.amount_financed)) =
      Except.ok (-1/200) ∧
    (generate_standard_amortization (10001/100) 0 1 (1/2400)).map
        (fun s => s.total_of_payments - (s.finance_charge + s.amount_financed)) =
      Except.ok (1/100) := by
  constructor
  · have hmp : calculate_monthly_payment (20001/200) 0 ((1 : ℤ) * 12) =
        Except.ok (20001/200 / (((1 : ℤ) * 12 : ℤ) : ℚ)) := by
      simp only [calculate_monthly_payment, pydiv, if_pos rfl]
      norm_num
    have hstd := (gen_std_ok_iff (20001/200) 0 1 0 _).mpr ⟨_, hmp, rfl⟩
    rw [hstd]
    simp only [Except.map, Except.ok.injEq]
    have hT : ((20001/200 : ℚ) / (((1 : ℤ) * 12 : ℤ) : ℚ) + 0) * (((1 : ℤ) * 12 : ℤ) : ℚ) =
        20001/200 := by
      push_cast
      ring
    rw [hT]
    have h1 : round2 (20001/200) = 100 := by
      unfold round2
      rw [show (20001/200 : ℚ) * 100 = ((10000 : ℤ) : ℚ) + 1/2 by norm_num,
        roundHalfEven_eq_tie_even _ 10000 rfl (by decide)]
      norm_num
    have h2 : round2 ((20001/200 : ℚ) - 20001/200) = 0 := by
      rw [show (20001/200 : ℚ) - 20001/200 = 0 by ring]
      exact round2_zero
    rw [h1, h2]
    norm_num
  · have hmp : calculate_monthly_payment (10001/100) 0 ((1 : ℤ) * 12) =
        Except.ok (10001/100 / (((1 : ℤ) * 12 : ℤ) : ℚ)) := by
      simp only [calculate_monthly_payment, pydiv, if_pos rfl]
      norm_num
    have hstd := (gen_std_ok_iff (10001/100) 0 1 (1/2400) _).mpr ⟨_, hmp, rfl⟩
    rw [hstd]
    simp only [Except.map, Except.ok.injEq]
    have hT : ((10001/100 : ℚ) / (((1 : ℤ) * 12 : ℤ) : ℚ) + 1/2400) * (((1 : ℤ) * 12 : ℤ) : ℚ) =
        20003/200 := by
      push_cast
      ring
    rw [hT]
    have h1 : round2 (20003/200) = 5001/50 := by
      unfold round2
      rw [show (20003/200 : ℚ) * 100 = ((10001 : ℤ) : ℚ) + 1/2 by norm_num,
        roundHalfEven_eq_tie_odd _ 10001 rfl (by decide)]
      norm_num
    have h2 : round2 ((20003/200 : ℚ) - 10001/100) = 0 := by
      rw [show (20003/200 : ℚ) - 10001/100 = 1/200 by norm_num]
      unfold round2
      rw [show (1/200 : ℚ) * 100 = ((0 : ℤ) : ℚ) + 1/2 by norm_num,
        roundHalfEven_eq_tie_even _ 0 rfl (by decide)]
      norm_num
    rw [h1, h2]
    norm_num

/-- C2 amended: `total_of_payments = finance_charge + amount_financed` holds
for all three generators whenever the amount financed is an even number of
cents (in particular any whole-dollar amount); subtracting such an amount
commutes with half-even rounding to cents, which fails for fractional-cent
amounts and, at half-cent ties, for odd-cent amounts. -/
theorem C2_totals_reconcile (P rate : ℚ) (term io : ℤ) (fee : ℚ)
    (hP : ∃ m : ℤ, P * 100 = 2 * m) :
    (∀ s, generate_standard_amortization P rate term fee = Except.ok s →
      s.total_of_payments = s.finance_charge + s.amount_financed) ∧
    ((generate_interest_only_balloon P rate term fee).total_of_payments =
      (generate_interest_only_balloon P rate term fee).finance_charge +
        (generate_interest_only_balloon P rate term fee).amount_financed) ∧
    (∀ s, generate_hybrid P rate term io fee = Except.ok s →
      s.total_of_payments = s.finance_charge + s.amount_financed) := by
  have key : ∀ T : ℚ, round2 T = round2 (T - P) + P := by
    intro T
    have h := round2_add_even_cents (T - P) P hP
    have h2 : T - P + P = T := by ring
    rw [h2] at h
    exact h
  refine ⟨?_, ?_, ?_⟩
  · intro s hs
    obtain ⟨mp, _, hrec⟩ := (gen_std_ok_iff P rate term fee s).mp hs
    subst hrec
    exact key _
  · simp only [generate_interest_only_balloon]
    exact key _
  · intro s hs
    rcases le_or_lt term io with hge | hlt
    · rw [gen_hybrid_error P rate term io fee hge] at hs
      cases hs
    · obtain ⟨ap, _, hrec⟩ := (gen_hybrid_ok_iff P rate term io fee s hlt).mp hs
      subst hrec
      exact key _

/-- Witness for the amended C2: the interest-only summary at principal 100,
rate 6 percent, 5-year term. -/
theorem C2_witness :
    (generate_interest_only_balloon 100 (6/100) 5 0).total_of_payments =
      (generate_interest_only_balloon 100 (6/100) 5 0).finance_charge +
        (generate_interest_only_balloon 100 (6/100) 5 0).amount_financed :=
  (C2_totals_reconcile 100 (6/100) 5 3 0 ⟨5000, by norm_num⟩).2.1

/-! ### Note valuation lemmas -/

theorem round1_zero : round1 0 = 0 := by
  unfold round1 roundHalfEven
  norm_num

theorem foldl_add_eq_sum (f : PaymentScheduleRow → ℚ) :
    ∀ (l : List PaymentScheduleRow) (a : ℚ),
      l.foldl (fun acc r => acc + f r) a = a + (l.map f).sum := by
  intro l
  induction l with
  | nil => intro a; simp
  | cons x xs ih =>
    intro a
    simp only [List.foldl_cons, List.map_cons, List.sum_cons, ih, add_assoc]

/-- `calculate_note_sale_price` agrees with the spec-side present-value sum
`notePresentValueSpec`: the sale price is the rounded PV, the discount amount
is the rounded difference against principal, and the discount percent is the
relative discount rounded to one decimal (0 for non-positive principal). -/
theorem note_sale_price_eq (s : LoanSummary) (y : ℚ) :
    calculate_note_sale_price s y =
      { buyer_yield := y * 100
        sale_price := (roundHalfEven (notePresentValueSpec s y) : ℚ)
        discount_amount := (roundHalfEven (s.amount_financed - notePresentValueSpec s y) : ℚ)
        discount_percent := if 0 < s.amount_financed
          then round1 ((s.amount_financed - notePresentValueSpec s y) / s.amount_financed * 100)
          else 0 } := by
  simp only [calculate_note_sale_price, notePresentValueSpec]
  rw [foldl_add_eq_sum]
  by_cases hP : 0 < s.amount_financed
  · simp [hP]
  · simp [hP, round1_zero]

/-- C8: `calculate_note_sale_price` computes the present value as the spec's
sum over schedule rows of `(payment - servicingFee) / (1 + y/12) ^ periodNumber`;
the returned sale price is that PV rounded to whole currency units, the
returned discount amount is the (whole-unit rounded) difference of principal
and PV, and the discount percent is the relative discount times 100 rounded to
one decimal, defined as 0 when the principal is zero (or negative). -/
theorem C8_note_sale_refines_spec (s : LoanSummary) (y : ℚ) :
    calculate_note_sale_price s y =
      { buyer_yield := y * 100
        sale_price := (roundHalfEven (notePresentValueSpec s y) : ℚ)
        discount_amount := (roundHalfEven (s.amount_financed - notePresentValueSpec s y) : ℚ)
        discount_percent := if 0 < s.amount_financed
          then round1 ((s.amount_financed - notePresentValueSpec s y) / s.amount_financed * 100)
          else 0 } :=
  note_sale_price_eq s y

/-- Counterexample for C9 as stated: `oneRowNote` has positive principal (100)
and non-negative row payments (a single payment of 5), yet because the
servicing fee (10) exceeds the row payment, the discounted cash flow is
negative and the discount percent strictly decreases (105 to 104.5) when the
required yield rises from 0 to 120 percent. -/
theorem C9_counterexample :
    (calculate_note_sale_price oneRowNote (6/5)).discount_percent <
      (calculate_note_sale_price oneRowNote 0).discount_percent ∧
    0 < oneRowNote.amount_financed := by
  have hpv2 : notePresentValueSpec oneRowNote (6/5) = -50/11 := by
    simp [notePresentValueSpec, oneRowNote]
    norm_num
  have hpv1 : notePresentValueSpec oneRowNote 0 = -5 := by
    simp [notePresentValueSpec, oneRowNote]
    norm_num
  have h100 : (0 : ℚ) < oneRowNote.amount_financed := by norm_num [oneRowNote]
  have ha : oneRowNote.amount_financed = 100 := rfl
  have hr1 : round1 (1150/11) = 209/2 := by
    unfold round1
    rw [show (1150/11 : ℚ) * 10 = 11500/11 by norm_num,
      roundHalfEven_eq_down (11500/11) 1045 (by norm_num) (by norm_num)]
    norm_num
  have hr0 : round1 105 = 105 := by
    unfold round1
    rw [show (105 : ℚ) * 10 = ((1050 : ℤ) : ℚ) by norm_num,
      roundHalfEven_eq_down _ 1050 (by norm_num) (by norm_num)]
    norm_num
  refine ⟨?_, h100⟩
  simp only [note_sale_price_eq, hpv1, hpv2]
  rw [if_pos h100, ha]
  rw [show ((100 : ℚ) - -50/11) / 100 * 100 = 1150/11 by norm_num,
    show ((100 : ℚ) - -5) / 100 * 100 = 105 by norm_num, hr1, hr0]
  norm_num

/-- C9 amended: the discount percent is monotone non-decreasing in the
required yield for a fixed summary with positive principal, provided each
row's payment covers the servicing fee, so the cash flows the buyer discounts
are non-negative. -/
theorem C9_discount_monotone (s : LoanSummary) (y1 y2 : ℚ)
    (hy1 : 0 ≤ y1) (hy12 : y1 ≤ y2) (hP : 0 < s.amount_financed)
    (hnet : ∀ r ∈ s.schedule, s.monthly_servicing_fee ≤ r.payment_amount) :
    (calculate_note_sale_price s y1).discount_percent ≤
      (calculate_note_sale_price s y2).discount_percent := by
  rw [note_sale_price_eq, note_sale_price_eq]
  simp only [if_pos hP]
  have hpv : notePresentValueSpec s y2 ≤ notePresentValueSpec s y1 := by
    unfold notePresentValueSpec
    apply List.sum_le_sum
    intro r hr
    have hnum : 0 ≤ r.payment_amount - s.monthly_servicing_fee := by
      have := hnet r hr
      linarith
    have hb1 : (0 : ℚ) < (1 + y1 / 12) ^ r.payment_number := pow_pos (by linarith) _
    have hbb : (1 + y1 / 12) ^ r.payment_number ≤ (1 + y2 / 12) ^ r.payment_number :=
      pow_le_pow_left₀ (by linarith) (by linarith) _
    exact div_le_div_of_nonneg_left hnum hb1 hbb
  apply round1_mono
  have h2 := (div_le_div_iff_of_pos_right hP).mpr
    (by linarith : s.amount_financed - notePresentValueSpec s y1 ≤
      s.amount_financed - notePresentValueSpec s y2)
  nlinarith [h2]

/-- Witness for the amended C9: the one-row fixture with the servicing fee
zeroed out, at yields 0 and 120 percent. -/
theorem C9_witness :
    (calculate_note_sale_price { oneRowNote with monthly_servicing_fee := 0 } 0).discount_percent ≤
      (calculate_note_sale_price { oneRowNote with monthly_servicing_fee := 0 }
        (6/5)).discount_percent :=
  C9_discount_monotone _ 0 (6/5) (by norm_num) (by norm_num) (by norm_num [oneRowNote])
    (by
      intro r hr
      simp only [oneRowNote] at hr
      simp only [List.mem_singleton] at hr
      subst hr
      norm_num [oneRowNote])

end SellerFinancing
